import Mathlib

/-!
Verification of the resolution-and-aggregation core of the actual-budget-mcp
server (a TypeScript MCP server over the Actual Budget ledger API).

The definitions below are a shallow embedding of the source:
* `src/actual-client.ts` — the `ActualBudgetClient` wrapper: currency utilities
  (`toAmount` / `fromAmount`), and the mutating client operations, modelled as
  the sequences of underlying `api.*` calls they issue;
* `src/tools.ts` — the tool handlers (`get_account_balance`, `add_transaction`,
  `search_transactions`, `update_transaction`, `get_budget_month`,
  `set_budget_amount`, `get_spending_summary`, result shaping).

Modelling conventions:
* JavaScript numbers are modelled as exact rationals (`ℚ`) for currency values
  and integers (`ℤ`) for minor-unit amounts; `Math.round` is `⌊x + 1/2⌋`
  (round half toward positive infinity), which is JavaScript's behaviour.
* JavaScript truthiness tests on optional strings (`if (x)`, `x || d`) are
  modelled explicitly: `some ""` counts as falsy (`optTruthy`, `jsOrString`).
* `Array.prototype.sort` with a comparator is modelled by the stable
  `List.mergeSort`; `localeCompare` on ISO date strings is the lexicographic
  string order.
* `new Map(entries)` followed by `.get` is modelled by `jsMapGet`
  (last binding of a key wins, `none` when absent).
* Handlers that `throw` return `Except String`; data-access side effects are
  modelled as explicit call traces (`DataOp`, `ApiCall`).
-/

/-- Lowercase a string character by character (model of `String.prototype.toLowerCase`). -/
def lowerStr (s : String) : String := String.mk (s.data.map Char.toLower)

/-- Case-insensitive substring test (model of `hay.toLowerCase().includes(needle.toLowerCase())`). -/
def strContainsLower (hay needle : String) : Bool :=
  decide ((lowerStr needle).data.IsInfix (lowerStr hay).data)

/-- JavaScript truthiness of an optional string: `some ""` is falsy. -/
def optTruthy : Option String → Option String
  | some s => if s = "" then none else some s
  | none => none

/-- Model of the JavaScript `x || dflt` idiom on an optional string. -/
def jsOrString (o : Option String) (dflt : String) : String :=
  match o with
  | some s => if s = "" then dflt else s
  | none => dflt

/-- Model of `new Map(entries).get k`: the last binding of `k` wins, `none` when absent. -/
def jsMapGet {α : Type} (entries : List (String × α)) (k : String) : Option α :=
  entries.foldl (fun acc e => if e.1 = k then some e.2 else acc) none

/-- Model of JavaScript `Math.round` (round half toward positive infinity). -/
def jsRound (q : ℚ) : ℤ := ⌊q + 1/2⌋

/-- `ActualBudgetClient.toAmount`: `Math.round(value * 100)` (decimal to minor units). -/
def toAmount (value : ℚ) : ℤ := jsRound (value * 100)

/-- `ActualBudgetClient.fromAmount`: `value / 100` (minor units to decimal). -/
def fromAmount (value : ℚ) : ℚ := value / 100

/-- The id-or-name resolution predicate used verbatim in every handler:
`x.id === tok || x.name.toLowerCase() === tok.toLowerCase()`. -/
def idOrNamePred {α : Type} (getId getName : α → String) (tok : String) (x : α) : Bool :=
  getId x == tok || lowerStr (getName x) == lowerStr tok

/-- The entity resolver as inlined in each tool handler:
`collection.find(x => x.id === tok || x.name.toLowerCase() === tok.toLowerCase())`. -/
def findByIdOrName {α : Type} (getId getName : α → String) (tok : String) (xs : List α) :
    Option α :=
  xs.find? (idOrNamePred getId getName tok)

/-- Account record as listed by the ledger data access layer. -/
structure Account where
  id : String
  name : String
  offbudget : Bool
  closed : Bool
deriving DecidableEq, Repr

/-- Category record. -/
structure Category where
  id : String
  name : String
  group_id : Option String
  is_income : Bool
deriving DecidableEq, Repr

/-- Payee record. -/
structure Payee where
  id : String
  name : String
  category : Option String
  transfer_acct : Option String
deriving DecidableEq, Repr

/-- Transaction as fetched from the ledger (amounts in minor units; optional
payee id, category id, notes and cleared flag). -/
structure RawTxn where
  id : String
  date : String
  amount : ℤ
  payee : Option String
  category : Option String
  notes : Option String
  cleared : Option Bool
deriving DecidableEq, Repr

/-- Underlying `@actual-app/api` calls issued by `ActualBudgetClient` methods. -/
inductive ApiCall where
  | apiInit
  | downloadBudget
  | importTransactions
  | updateTransaction
  | deleteTransaction
  | setBudgetAmount
  | createPayee
  | createSchedule
  | updateSchedule
  | deleteSchedule
  | apiSync
deriving DecidableEq, Repr

/-- `ensureInitialized`: when the client is not yet initialized it runs
`api.init` and `api.downloadBudget`, otherwise nothing. -/
def ensureInitCalls (initialized : Bool) : List ApiCall :=
  if initialized then [] else [.apiInit, .downloadBudget]

/-- Call trace of `ActualBudgetClient.addTransaction` (an import followed by a sync). -/
def addTransactionCalls (initialized : Bool) : List ApiCall :=
  ensureInitCalls initialized ++ [.importTransactions, .apiSync]

/-- Call trace of `ActualBudgetClient.importTransactions`. -/
def importTransactionsCalls (initialized : Bool) : List ApiCall :=
  ensureInitCalls initialized ++ [.importTransactions, .apiSync]

/-- Call trace of `ActualBudgetClient.updateTransaction`. -/
def updateTransactionCalls (initialized : Bool) : List ApiCall :=
  ensureInitCalls initialized ++ [.updateTransaction, .apiSync]

/-- Call trace of `ActualBudgetClient.deleteTransaction`. -/
def deleteTransactionCalls (initialized : Bool) : List ApiCall :=
  ensureInitCalls initialized ++ [.deleteTransaction, .apiSync]

/-- Call trace of `ActualBudgetClient.setBudgetAmount`. -/
def setBudgetAmountCalls (initialized : Bool) : List ApiCall :=
  ensureInitCalls initialized ++ [.setBudgetAmount, .apiSync]

/-- Call trace of `ActualBudgetClient.createPayee`. -/
def createPayeeCalls (initialized : Bool) : List ApiCall :=
  ensureInitCalls initialized ++ [.createPayee, .apiSync]

/-- Call trace of `ActualBudgetClient.createSchedule`. -/
def createScheduleCalls (initialized : Bool) : List ApiCall :=
  ensureInitCalls initialized ++ [.createSchedule, .apiSync]

/-- Call trace of `ActualBudgetClient.updateSchedule`. -/
def updateScheduleCalls (initialized : Bool) : List ApiCall :=
  ensureInitCalls initialized ++ [.updateSchedule, .apiSync]

/-- Call trace of `ActualBudgetClient.deleteSchedule`. -/
def deleteScheduleCalls (initialized : Bool) : List ApiCall :=
  ensureInitCalls initialized ++ [.deleteSchedule, .apiSync]

/-- `ActualBudgetClient.addTransaction` return value: `result.added[0] || 'unknown'`
(the first imported id, or the literal string `unknown` when the backend
reported none or an empty id). -/
def firstOrUnknown : List String → String
  | [] => "unknown"
  | x :: _ => if x = "" then "unknown" else x

/-- Transaction payload submitted by the `add_transaction` handler to
`client.addTransaction` (amount already converted to minor units). -/
structure NewTransaction where
  account : String
  date : String
  amount : ℤ
  payee_name : Option String
  category : Option String
  notes : Option String
deriving DecidableEq, Repr

/-- Structured output of the `add_transaction` tool. -/
structure AddTransactionOutput where
  success : Bool
  transaction_id : String
  message : String
deriving DecidableEq, Repr

/-- The `add_transaction` handler: resolve the account (hard error when it does
not resolve), resolve the optional category (silently dropped when it does not
resolve), default the date to today, convert the amount to minor units, submit,
and report the new id. `addedIds` is the backend import result `result.added`. -/
def addTransactionHandler (accounts : List Account) (categories : List Category)
    (today : String) (addedIds : List String)
    (account : String) (amount : ℚ) (payee_name : Option String)
    (category : Option String) (notes : Option String) (date : Option String) :
    Except String (AddTransactionOutput × NewTransaction) :=
  match findByIdOrName Account.id Account.name account accounts with
  | none => .error ("Account not found: " ++ account)
  | some foundAccount =>
    let categoryId : Option String :=
      match optTruthy category with
      | some c => (findByIdOrName Category.id Category.name c categories).map Category.id
      | none => none
    let txn : NewTransaction :=
      { account := foundAccount.id
        date := jsOrString date today
        amount := toAmount amount
        payee_name := payee_name
        category := categoryId
        notes := notes }
    let transactionId := firstOrUnknown addedIds
    .ok
      ({ success := true
         transaction_id := transactionId
         message := "Transaction added: " ++ toString |amount| ++ " " ++
           (if amount < 0 then "expense" else "income") ++ " to " ++ foundAccount.name },
       txn)

/-- Partial update payload built by the `update_transaction` handler (only the
fields the caller supplied are present). -/
structure UpdatePayload where
  amount : Option ℤ
  category : Option String
  payee_name : Option String
  notes : Option String
  date : Option String
  cleared : Option Bool
deriving DecidableEq, Repr

/-- Structured output of the `update_transaction` tool. -/
structure UpdateTransactionOutput where
  success : Bool
  message : String
deriving DecidableEq, Repr

/-- The `update_transaction` handler: each supplied field is translated into the
update payload; a supplied category is resolved id-or-name and included only
when resolution succeeds (silent omission on failure). -/
def updateTransactionHandler (categories : List Category) (id : String)
    (amount : Option ℚ) (category : Option String) (payee_name : Option String)
    (notes : Option String) (date : Option String) (cleared : Option Bool) :
    UpdateTransactionOutput × UpdatePayload :=
  let updates : UpdatePayload :=
    { amount := amount.map toAmount
      category :=
        match optTruthy category with
        | some c => (findByIdOrName Category.id Category.name c categories).map Category.id
        | none => none
      payee_name := payee_name
      notes := notes
      date := date
      cleared := cleared }
  ({ success := true, message := "Transaction " ++ id ++ " updated successfully" }, updates)

/-- Data-access operations visible to the `set_budget_amount` handler. -/
inductive DataOp where
  | getCategoriesOp
  | setBudgetAmountOp (month : String) (categoryId : String) (amount : ℤ)
  | syncOp
deriving DecidableEq, Repr

/-- Structured output of the `set_budget_amount` tool. -/
structure SetBudgetOutput where
  success : Bool
  message : String
deriving DecidableEq, Repr

/-- The `set_budget_amount` handler, with its data-access call trace. It reads
the category list, resolves the category id-or-name (hard error naming the
token when it does not resolve), and only on success calls
`client.setBudgetAmount` (which issues the write and then a sync). -/
def setBudgetAmountHandler (categories : List Category) (currentMonth : String)
    (month : Option String) (category : String) (amount : ℚ) :
    Except String SetBudgetOutput × List DataOp :=
  let targetMonth := jsOrString month currentMonth
  match findByIdOrName Category.id Category.name category categories with
  | none => (.error ("Category not found: " ++ category), [.getCategoriesOp])
  | some c =>
      (.ok
        { success := true
          message := "Set budget for \"" ++ c.name ++ "\" to " ++ toString amount ++
            " for " ++ targetMonth },
       [.getCategoriesOp, .setBudgetAmountOp targetMonth c.id (toAmount amount), .syncOp])

/-- Per-category budget row of a budget month (minor units, as delivered by the
data layer after `ActualBudgetClient.getBudgetMonth`). -/
structure CategoryBudget where
  id : String
  name : String
  budgeted : ℤ
  spent : ℤ
  balance : ℤ
  carryover : Bool
deriving DecidableEq, Repr

/-- Per-group budget row of a budget month, including the data layer's own
(signed) group `spent` total, which the handler ignores. -/
structure CategoryGroupBudget where
  id : String
  name : String
  budgeted : ℤ
  spent : ℤ
  balance : ℤ
  categories : List CategoryBudget
deriving DecidableEq, Repr

/-- Budget-month snapshot as returned by `client.getBudgetMonth`. -/
structure BudgetMonthData where
  month : String
  incomeAvailable : ℤ
  lastMonthOverspent : ℤ
  forNextMonth : ℤ
  totalBudgeted : ℤ
  toBudget : ℤ
  categoryGroups : List CategoryGroupBudget
deriving DecidableEq, Repr

/-- Per-category row of the `get_budget_month` output (decimal currency). -/
structure CategoryOut where
  name : String
  budgeted : ℚ
  spent : ℚ
  balance : ℚ
deriving DecidableEq, Repr

/-- Per-group row of the `get_budget_month` output (decimal currency). -/
structure GroupOut where
  name : String
  budgeted : ℚ
  spent : ℚ
  balance : ℚ
  categories : List CategoryOut
deriving DecidableEq, Repr

/-- Structured output of the `get_budget_month` tool. -/
structure BudgetMonthOutput where
  month : String
  to_budget : ℚ
  total_budgeted : ℚ
  total_spent : ℚ
  category_groups : List GroupOut
deriving DecidableEq, Repr

/-- `g.categories.reduce((sum, c) => sum + Math.abs(c.spent), 0)`: the
recomputed group spend (sum of absolute per-category spend, in minor units). -/
def groupSpentOf (g : CategoryGroupBudget) : ℤ :=
  g.categories.foldl (fun sum c => sum + |c.spent|) 0

/-- Output row built for one category group by the `get_budget_month` handler
(its `spent` is the recomputed absolute sum, not the group record's own). -/
def groupOut (g : CategoryGroupBudget) : GroupOut :=
  { name := g.name
    budgeted := fromAmount (g.budgeted : ℚ)
    spent := fromAmount (groupSpentOf g : ℚ)
    balance := fromAmount (g.balance : ℚ)
    categories := g.categories.map (fun c =>
      { name := c.name
        budgeted := fromAmount (c.budgeted : ℚ)
        spent := fromAmount ((|c.spent| : ℤ) : ℚ)
        balance := fromAmount (c.balance : ℚ) }) }

/-- The `get_budget_month` handler: one pass over the groups accumulating the
grand total of recomputed group spend while building the output rows, then
currency-normalizing every monetary field. -/
def getBudgetMonthHandler (budget : BudgetMonthData) (targetMonth : String) :
    BudgetMonthOutput :=
  let res := budget.categoryGroups.foldl
    (fun (acc : ℤ × List GroupOut) g => (acc.1 + groupSpentOf g, acc.2 ++ [groupOut g]))
    (0, [])
  { month := targetMonth
    to_budget := fromAmount (budget.toBudget : ℚ)
    total_budgeted := fromAmount (budget.totalBudgeted : ℚ)
    total_spent := fromAmount (res.1 : ℚ)
    category_groups := res.2 }

/-- Accumulator state of the `get_spending_summary` aggregation pass
(per-category absolute totals in insertion order, plus running totals). -/
structure SummaryAcc where
  totals : List (String × ℤ)
  totalSpent : ℤ
  totalIncome : ℤ
deriving DecidableEq, Repr

/-- `categoryTotals.set(k, (categoryTotals.get(k) || 0) + v)` on a JavaScript
`Map`: add to an existing key in place, or append a new key at the end. -/
def addTotal (k : String) (v : ℤ) : List (String × ℤ) → List (String × ℤ)
  | [] => [(k, v)]
  | e :: rest => if e.1 = k then (e.1, e.2 + v) :: rest else e :: addTotal k v rest

/-- Category display name used by the summary:
`t.category ? categoryMap.get(t.category) || 'Uncategorized' : 'Uncategorized'`. -/
def summaryCatName (categoryLookup : String → Option String) (t : RawTxn) : String :=
  match optTruthy t.category with
  | some cid => jsOrString (categoryLookup cid) "Uncategorized"
  | none => "Uncategorized"

/-- The totals pass of `get_spending_summary`: negative amounts accumulate into
the per-category absolute totals and the spent total, non-negative amounts into
the income total. -/
def summarize (categoryLookup : String → Option String) (txns : List RawTxn) : SummaryAcc :=
  txns.foldl
    (fun acc t =>
      if t.amount < 0 then
        { totals := addTotal (summaryCatName categoryLookup t) |t.amount| acc.totals
          totalSpent := acc.totalSpent + |t.amount|
          totalIncome := acc.totalIncome }
      else
        { acc with totalIncome := acc.totalIncome + t.amount })
    { totals := [], totalSpent := 0, totalIncome := 0 }

/-- One row of the `by_category` list in the spending summary output. -/
structure CategorySummary where
  category : String
  amount : ℚ
  percentage : ℤ
deriving DecidableEq, Repr

/-- Structured output of the `get_spending_summary` tool. -/
structure SpendingSummaryOutput where
  period_start : String
  period_end : String
  total_spent : ℚ
  total_income : ℚ
  net : ℚ
  by_category : List CategorySummary
deriving DecidableEq, Repr

/-- Transactions collected by `get_spending_summary`: every non-closed,
on-budget account is fetched and the results concatenated. -/
def collectSummaryTxns (accounts : List Account) (fetch : String → List RawTxn) :
    List RawTxn :=
  (accounts.filter (fun a => !a.closed && !a.offbudget)).flatMap (fun a => fetch a.id)

/-- Lookup from category id to name built by the handlers
(`new Map(categories.map(c => [c.id, c.name]))`). -/
def categoryLookupOf (categories : List Category) : String → Option String :=
  jsMapGet (categories.map (fun c => (c.id, c.name)))

/-- The `get_spending_summary` handler: aggregate the fetched transactions,
then emit per-category rows `{category, amount, percentage}` sorted descending
by amount, where the percentage is `Math.round(amount / totalSpent * 100)`
guarded to `0` when the spent total is not positive. -/
def getSpendingSummaryHandler (accounts : List Account) (categories : List Category)
    (fetch : String → List RawTxn) (startDate endDate : String) :
    SpendingSummaryOutput :=
  let categoryLookup := categoryLookupOf categories
  let txns := collectSummaryTxns accounts fetch
  let acc := summarize categoryLookup txns
  let byCategory :=
    (acc.totals.map (fun kv =>
      { category := kv.1
        amount := fromAmount (kv.2 : ℚ)
        percentage :=
          if acc.totalSpent > 0 then jsRound ((kv.2 : ℚ) / (acc.totalSpent : ℚ) * 100)
          else 0 : CategorySummary })).mergeSort
      (fun a b => decide (b.amount ≤ a.amount))
  { period_start := startDate
    period_end := endDate
    total_spent := fromAmount (acc.totalSpent : ℚ)
    total_income := fromAmount (acc.totalIncome : ℚ)
    net := fromAmount ((acc.totalIncome - acc.totalSpent : ℤ) : ℚ)
    by_category := byCategory }

/-- Transaction tagged with its source account id
(`{...t, accountId: acc.id}` in the search gathering loop). -/
structure TaggedTxn where
  id : String
  date : String
  amount : ℤ
  payee : Option String
  category : Option String
  notes : Option String
  accountId : String
deriving DecidableEq, Repr

/-- Tag a fetched transaction with the account it came from. -/
def tagTxn (accId : String) (t : RawTxn) : TaggedTxn :=
  { id := t.id, date := t.date, amount := t.amount, payee := t.payee,
    category := t.category, notes := t.notes, accountId := accId }

/-- The gathering loop of `search_transactions`: fetch each non-closed
account's transactions for the resolved window and tag them. -/
def gatherSearchTxns (accounts : List Account)
    (fetch : String → String → String → List RawTxn) (startDate endDate : String) :
    List TaggedTxn :=
  (accounts.filter (fun a => !a.closed)).flatMap
    (fun a => (fetch a.id startDate endDate).map (tagTxn a.id))

/-- The payee filter as a standalone condition: true when the filter input is
absent (or the empty string, which JavaScript truthiness skips), otherwise a
case-insensitive substring test on the resolved payee name (transactions with
no resolvable payee name fail). -/
def payeeCond (payeeLookup : String → Option String) (payeeArg : Option String)
    (t : TaggedTxn) : Bool :=
  match optTruthy payeeArg with
  | none => true
  | some p =>
    match (optTruthy t.payee).bind payeeLookup with
    | some n => strContainsLower n p
    | none => false

/-- The notes filter as a standalone condition: true when the filter input is
absent or empty, otherwise a case-insensitive substring test on the notes. -/
def notesCond (notesArg : Option String) (t : TaggedTxn) : Bool :=
  match optTruthy notesArg with
  | none => true
  | some s =>
    match t.notes with
    | some n => strContainsLower n s
    | none => false

/-- The minimum-amount filter as a standalone condition (absolute value,
threshold converted to minor units). -/
def minCond (minArg : Option ℚ) (t : TaggedTxn) : Bool :=
  match minArg with
  | none => true
  | some m => decide (toAmount m ≤ |t.amount|)

/-- The maximum-amount filter as a standalone condition. -/
def maxCond (maxArg : Option ℚ) (t : TaggedTxn) : Bool :=
  match maxArg with
  | none => true
  | some m => decide (|t.amount| ≤ toAmount m)

/-- The filtering section of `search_transactions`, mirroring the source's
sequence of conditional `filtered = filtered.filter(...)` reassignments. -/
def searchFilter (payeeLookup : String → Option String)
    (payeeArg notesArg : Option String) (minArg maxArg : Option ℚ)
    (ts : List TaggedTxn) : List TaggedTxn :=
  let filtered := ts
  let filtered :=
    match optTruthy payeeArg with
    | some p => filtered.filter (fun t =>
        match (optTruthy t.payee).bind payeeLookup with
        | some n => strContainsLower n p
        | none => false)
    | none => filtered
  let filtered :=
    match optTruthy notesArg with
    | some s => filtered.filter (fun t =>
        match t.notes with
        | some n => strContainsLower n s
        | none => false)
    | none => filtered
  let filtered :=
    match minArg with
    | some m => filtered.filter (fun t => decide (toAmount m ≤ |t.amount|))
    | none => filtered
  let filtered :=
    match maxArg with
    | some m => filtered.filter (fun t => decide (|t.amount| ≤ toAmount m))
    | none => filtered
  filtered

/-- Comparator of the search sort, `(a, b) => b.date.localeCompare(a.date)`:
`a` sorts no later than `b` exactly when `b.date ≤ a.date` (descending). -/
def dateDescLe (a b : TaggedTxn) : Bool := decide (b.date ≤ a.date)

/-- Effective result cap, `limit || 50`: a missing (or zero, hence falsy)
limit becomes 50. -/
def effLimit : Option Nat → Nat
  | some l => if l = 0 then 50 else l
  | none => 50

/-- One formatted row of the `search_transactions` output. -/
structure SearchTxnOut where
  id : String
  account : String
  date : String
  amount : ℚ
  payee : Option String
  category : Option String
  notes : Option String
deriving DecidableEq, Repr

/-- Formatting step of `search_transactions`: resolve account/payee/category
ids to display names and normalize the amount. -/
def formatSearchTxn (accountLookup payeeLookup categoryLookup : String → Option String)
    (t : TaggedTxn) : SearchTxnOut :=
  { id := t.id
    account := jsOrString (accountLookup t.accountId) "Unknown"
    date := t.date
    amount := fromAmount (t.amount : ℚ)
    payee := (optTruthy t.payee).bind payeeLookup
    category := (optTruthy t.category).bind categoryLookup
    notes := t.notes }

/-- Structured output of the `search_transactions` tool. -/
structure SearchOutput where
  transactions : List SearchTxnOut
  total_count : Nat
deriving DecidableEq, Repr

/-- Lookup from account id to name (`new Map(accounts.map(a => [a.id, a.name]))`). -/
def accountLookupOf (accounts : List Account) : String → Option String :=
  jsMapGet (accounts.map (fun a => (a.id, a.name)))

/-- Lookup from payee id to name (`new Map(payees.map(p => [p.id, p.name]))`). -/
def payeeLookupOf (payees : List Payee) : String → Option String :=
  jsMapGet (payees.map (fun p => (p.id, p.name)))

/-- The `search_transactions` handler: gather transactions from all non-closed
accounts over the resolved window, apply the optional filters in sequence, sort
descending by date, truncate to the effective limit, and format. -/
def searchTransactionsHandler (accounts : List Account) (payees : List Payee)
    (categories : List Category) (fetch : String → String → String → List RawTxn)
    (todayStr ninetyDaysAgoStr : String)
    (payeeArg notesArg : Option String) (minArg maxArg : Option ℚ)
    (startArg endArg : Option String) (limitArg : Option Nat) : SearchOutput :=
  let payeeLookup := payeeLookupOf payees
  let categoryLookup := categoryLookupOf categories
  let accountLookup := accountLookupOf accounts
  let endDate := jsOrString endArg todayStr
  let startDate := jsOrString startArg ninetyDaysAgoStr
  let allTransactions := gatherSearchTxns accounts fetch startDate endDate
  let filtered := searchFilter payeeLookup payeeArg notesArg minArg maxArg allTransactions
  let sorted := filtered.mergeSort dateDescLe
  let limited := sorted.take (effLimit limitArg)
  let formatted := limited.map (formatSearchTxn accountLookup payeeLookup categoryLookup)
  { transactions := formatted, total_count := formatted.length }

/-- JSON values, the shape shared by a tool result's structured payload and its
serialized text rendering. -/
inductive Json where
  | jnull
  | jbool (b : Bool)
  | jnum (q : ℚ)
  | jstr (s : String)
  | jarr (elems : List Json)
  | jobj (fields : List (String × Json))

mutual

/-- Model of `JSON.stringify` on the payload object (whitespace elided; the
property relied on is that both result fields pass through this one function). -/
def jsonStringify : Json → String
  | .jnull => "null"
  | .jbool b => if b then "true" else "false"
  | .jnum q => toString q
  | .jstr s => "\"" ++ s ++ "\""
  | .jarr es => "[" ++ stringifyElems es ++ "]"
  | .jobj fs => "\x7b" ++ stringifyFields fs ++ "\x7d"

/-- Serialize the comma-separated elements of a JSON array. -/
def stringifyElems : List Json → String
  | [] => ""
  | [e] => jsonStringify e
  | e :: es => jsonStringify e ++ "," ++ stringifyElems es

/-- Serialize the comma-separated fields of a JSON object. -/
def stringifyFields : List (String × Json) → String
  | [] => ""
  | [(k, v)] => "\"" ++ k ++ "\":" ++ jsonStringify v
  | (k, v) :: fs => "\"" ++ k ++ "\":" ++ jsonStringify v ++ "," ++ stringifyFields fs

end

/-- One block of an MCP tool result's `content` array (always `type: 'text'` here). -/
structure ContentItem where
  type : String
  text : String

/-- An MCP tool result: rendered text blocks plus the structured payload. -/
structure ToolResult where
  content : List ContentItem
  structuredContent : Json

/-- One row of the `get_accounts` output (balance already currency-normalized). -/
structure AccountWithBalance where
  id : String
  name : String
  balance : ℚ
  offbudget : Bool
  closed : Bool
deriving DecidableEq, Repr

/-- The `get_accounts` handler body: every account paired with its fetched,
normalized balance. -/
def getAccountsOutput (accounts : List Account) (balanceOf : String → ℤ) :
    List AccountWithBalance :=
  accounts.map (fun a =>
    { id := a.id, name := a.name, balance := fromAmount ((balanceOf a.id : ℤ) : ℚ),
      offbudget := a.offbudget, closed := a.closed })

/-- JSON encoding of the `get_accounts` output object. -/
def encodeAccountsOutput (xs : List AccountWithBalance) : Json :=
  .jobj [("accounts", .jarr (xs.map (fun a =>
    .jobj [("id", .jstr a.id), ("name", .jstr a.name), ("balance", .jnum a.balance),
           ("offbudget", .jbool a.offbudget), ("closed", .jbool a.closed)])))]

/-- JSON encoding of one `search_transactions` row (absent optional fields are
dropped, as `JSON.stringify` drops `undefined` properties). -/
def encodeSearchTxn (t : SearchTxnOut) : Json :=
  .jobj ([("id", Json.jstr t.id), ("account", Json.jstr t.account),
          ("date", Json.jstr t.date), ("amount", Json.jnum t.amount)] ++
    (match t.payee with | some p => [("payee", Json.jstr p)] | none => []) ++
    (match t.category with | some c => [("category", Json.jstr c)] | none => []) ++
    (match t.notes with | some n => [("notes", Json.jstr n)] | none => []))

/-- JSON encoding of the `search_transactions` output object. -/
def encodeSearchOutput (o : SearchOutput) : Json :=
  .jobj [("transactions", .jarr (o.transactions.map encodeSearchTxn)),
         ("total_count", .jnum (o.total_count : ℚ))]

/-- Result shaping of `get_accounts`: the one output object is serialized into
the text block and returned as the structured payload. -/
def getAccountsResult (accounts : List Account) (balanceOf : String → ℤ) : ToolResult :=
  let output := encodeAccountsOutput (getAccountsOutput accounts balanceOf)
  { content := [{ type := "text", text := jsonStringify output }]
    structuredContent := output }

/-- Result shaping of `search_transactions`. -/
def searchTransactionsResult (accounts : List Account) (payees : List Payee)
    (categories : List Category) (fetch : String → String → String → List RawTxn)
    (todayStr ninetyDaysAgoStr : String)
    (payeeArg notesArg : Option String) (minArg maxArg : Option ℚ)
    (startArg endArg : Option String) (limitArg : Option Nat) : ToolResult :=
  let output := encodeSearchOutput (searchTransactionsHandler accounts payees categories
    fetch todayStr ninetyDaysAgoStr payeeArg notesArg minArg maxArg startArg endArg limitArg)
  { content := [{ type := "text", text := jsonStringify output }]
    structuredContent := output }

/-- Result shaping of `sync_budget` (fixed success payload). -/
def syncBudgetResult : ToolResult :=
  let output := Json.jobj [("success", Json.jbool true),
    ("message", Json.jstr "Budget synchronized successfully")]
  { content := [{ type := "text", text := jsonStringify output }]
    structuredContent := output }

/-- Outcome extractor for the `add_transaction` handler: success flag, reported
transaction id, and the category field of the submitted transaction (`none`
when the call failed). -/
def addTxnOutcome (r : Except String (AddTransactionOutput × NewTransaction)) :
    Option (Bool × String × Option String) :=
  match r with
  | .ok (out, txn) => some (out.success, out.transaction_id, txn.category)
  | .error _ => none

/-- True of a data-access operation that writes (the budget write or the sync). -/
def isWriteOp : DataOp → Bool
  | .setBudgetAmountOp _ _ _ => true
  | .syncOp => true
  | .getCategoriesOp => false

/-- True when a call trace contains no data-access write. -/
def noWriteOps (ops : List DataOp) : Bool := ops.all (fun op => !isWriteOp op)

/-- True when every reported category percentage of a spending summary is zero. -/
def allPercentagesZero (o : SpendingSummaryOutput) : Bool :=
  o.by_category.all (fun e => e.percentage == 0)

/-- The mutation appears in the trace with a sync strictly after it, and the
trace ends in a sync. -/
def syncAfterMutation (calls : List ApiCall) (m : ApiCall) : Prop :=
  [m, ApiCall.apiSync].Sublist calls ∧ calls.getLast? = some ApiCall.apiSync

/-- Claim C2: the currency normalizer round-trips on exactly-representable
values: for every minor-unit integer `n`, `toAmount (fromAmount n) = n`, and
for every decimal with at most two fractional digits (every `k / 100`),
`fromAmount (toAmount d) = d`. Arithmetic is modelled over exact rationals,
which is the arithmetic of the claim's exactly-representable domain. -/
theorem currency_roundtrip :
    (∀ n : ℤ, toAmount (fromAmount (n : ℚ)) = n) ∧
    (∀ k : ℤ, fromAmount ((toAmount ((k : ℚ) / 100) : ℤ) : ℚ) = (k : ℚ) / 100) := by
  constructor
  · intro n
    unfold toAmount fromAmount jsRound
    rw [div_mul_cancel₀ _ (by norm_num : (100 : ℚ) ≠ 0), add_comm, Int.floor_add_int]
    norm_num
  · intro k
    unfold toAmount fromAmount jsRound
    rw [div_mul_cancel₀ _ (by norm_num : (100 : ℚ) ≠ 0), add_comm, Int.floor_add_int]
    norm_num

/-- Claim C1 counterexample: with the collection
`[{id: "acc1", name: "X"}, {id: "x", name: "B"}]` and token `"x"`, the record
`{id: "x", name: "B"}` matches by id, yet resolution returns the earlier record
`{id: "acc1", name: "X"}` via its case-insensitive name match — an id match
later in the list does not take precedence over an earlier name match. -/
theorem resolution_id_shadowed_by_earlier_name_cx :
    findByIdOrName Account.id Account.name "x"
        [⟨"acc1", "X", false, false⟩, ⟨"x", "B", false, false⟩] =
      some ⟨"acc1", "X", false, false⟩ ∧
    Account.id ⟨"x", "B", false, false⟩ = "x" ∧
    (⟨"x", "B", false, false⟩ : Account) ∈
      [(⟨"acc1", "X", false, false⟩ : Account), ⟨"x", "B", false, false⟩] ∧
    findByIdOrName Account.id Account.name "x"
        [⟨"acc1", "X", false, false⟩, ⟨"x", "B", false, false⟩] ≠
      some ⟨"x", "B", false, false⟩ := by
  refine ⟨by decide, rfl, by decide, by decide⟩

/-- Claim C1 (amended): resolution returns the first record in iteration order
matching by id or by case-insensitive name; in particular, if a record's id
equals the token and no earlier record matches by id or name, resolution
returns that exact record. -/
theorem resolution_id_match_unshadowed {α : Type} (getId getName : α → String)
    (ys zs : List α) (r : α) (tok : String)
    (hid : getId r = tok)
    (hprev : ∀ y ∈ ys, idOrNamePred getId getName tok y = false) :
    findByIdOrName getId getName tok (ys ++ r :: zs) = some r := by
  induction ys with
  | nil =>
    have hr : idOrNamePred getId getName tok r = true := by
      simp [idOrNamePred, hid]
    simp [findByIdOrName, List.find?_cons, hr]
  | cons y ys ih =>
    have hy := hprev y (List.mem_cons_self y ys)
    have ihx := ih (fun y2 hy2 => hprev y2 (List.mem_cons_of_mem _ hy2))
    simpa [findByIdOrName, List.find?_cons, hy] using ihx

/-- Claim C1 witness: token `"x"` matches the id of the second record and the
first record matches neither way, so resolution returns the id-matched record. -/
theorem resolution_id_match_unshadowed_witness :
    findByIdOrName Account.id Account.name "x"
        ([⟨"acc1", "Savings", false, false⟩] ++ (⟨"x", "B", false, false⟩ : Account) :: []) =
      some ⟨"x", "B", false, false⟩ :=
  resolution_id_match_unshadowed Account.id Account.name
    [⟨"acc1", "Savings", false, false⟩] [] ⟨"x", "B", false, false⟩ "x" rfl (by decide)

/-- Claim C8: every mutating client operation — addTransaction,
importTransactions, updateTransaction, deleteTransaction, setBudgetAmount,
createPayee, createSchedule, updateSchedule, deleteSchedule — issues its
mutation followed by a sync, and its call trace ends in that sync, whatever
the initialization state. -/
theorem mutating_ops_followed_by_sync :
    ∀ st : Bool,
      syncAfterMutation (addTransactionCalls st) .importTransactions ∧
      syncAfterMutation (importTransactionsCalls st) .importTransactions ∧
      syncAfterMutation (updateTransactionCalls st) .updateTransaction ∧
      syncAfterMutation (deleteTransactionCalls st) .deleteTransaction ∧
      syncAfterMutation (setBudgetAmountCalls st) .setBudgetAmount ∧
      syncAfterMutation (createPayeeCalls st) .createPayee ∧
      syncAfterMutation (createScheduleCalls st) .createSchedule ∧
      syncAfterMutation (updateScheduleCalls st) .updateSchedule ∧
      syncAfterMutation (deleteScheduleCalls st) .deleteSchedule := by
  intro st
  cases st <;> (unfold syncAfterMutation; decide)

/-- Claim C10: when the backend import reports no added ids, the client-side
`addTransaction` returns the literal string `unknown` instead of raising, and
the `add_transaction` tool consequently reports success with transaction id
`unknown`. -/
theorem add_transaction_unknown_id :
    firstOrUnknown [] = "unknown" ∧
    ∀ (accounts : List Account) (categories : List Category) (today : String)
      (account : String) (amount : ℚ) (payee_name notes date : Option String)
      (foundAccount : Account),
      findByIdOrName Account.id Account.name account accounts = some foundAccount →
      addTxnOutcome (addTransactionHandler accounts categories today [] account amount
        payee_name none notes date) = some (true, "unknown", none) := by
  refine ⟨rfl, ?_⟩
  intro accounts cats today accTok amount pn notes date fa hacc
  unfold addTransactionHandler
  rw [hacc]
  rfl

/-- Claim C10 witness: a resolvable account, an empty backend `added` list, and
the tool reports success with transaction id `unknown`. -/
theorem add_transaction_unknown_id_witness :
    addTxnOutcome (addTransactionHandler [⟨"a1", "Checking", false, false⟩] [] "2024-05-01"
      [] "Checking" (-35) none none none none) = some (true, "unknown", none) :=
  add_transaction_unknown_id.2 [⟨"a1", "Checking", false, false⟩] [] "2024-05-01"
    "Checking" (-35) none none none ⟨"a1", "Checking", false, false⟩ (by decide)

/-- Claim C6: `set_budget_amount` with an unresolvable category token fails
with an error naming that token, its data-access trace is only the category
read, and in particular no write (neither the budget write nor a sync) occurs. -/
theorem set_budget_amount_unresolved_no_write :
    ∀ (categories : List Category) (currentMonth : String) (month : Option String)
      (category : String) (amount : ℚ),
      findByIdOrName Category.id Category.name category categories = none →
      (setBudgetAmountHandler categories currentMonth month category amount).1 =
          .error ("Category not found: " ++ category) ∧
      (setBudgetAmountHandler categories currentMonth month category amount).2 =
          [.getCategoriesOp] ∧
      noWriteOps (setBudgetAmountHandler categories currentMonth month category amount).2 =
        true := by
  intro cats cm mo tok amt h
  unfold setBudgetAmountHandler
  rw [h]
  exact ⟨rfl, rfl, rfl⟩

/-- Claim C6 witness: the token `Rent` resolves against no category, the call
errors naming `Rent`, and the trace holds no write. -/
theorem set_budget_amount_unresolved_no_write_witness :
    (setBudgetAmountHandler [⟨"c1", "Food", none, false⟩] "2024-05" none "Rent" 100).1 =
        .error ("Category not found: " ++ "Rent") ∧
    (setBudgetAmountHandler [⟨"c1", "Food", none, false⟩] "2024-05" none "Rent" 100).2 =
        [.getCategoriesOp] ∧
    noWriteOps (setBudgetAmountHandler [⟨"c1", "Food", none, false⟩] "2024-05" none "Rent"
        100).2 = true :=
  set_budget_amount_unresolved_no_write [⟨"c1", "Food", none, false⟩] "2024-05" none "Rent"
    100 (by decide)

/-- Claim C7: in `add_transaction` and `update_transaction`, a category token
that resolves to no category is silently omitted rather than aborting — the
transaction is still submitted (and reported successful) with no category
field, and the update payload carries no category while the update reports
success. -/
theorem category_resolution_lenient_paths :
    (∀ (accounts : List Account) (categories : List Category) (today : String)
       (addedIds : List String) (account : String) (amount : ℚ)
       (payee_name : Option String) (tok : String) (notes date : Option String)
       (foundAccount : Account),
       findByIdOrName Account.id Account.name account accounts = some foundAccount →
       findByIdOrName Category.id Category.name tok categories = none →
       addTxnOutcome (addTransactionHandler accounts categories today addedIds account
         amount payee_name (some tok) notes date) =
         some (true, firstOrUnknown addedIds, none)) ∧
    (∀ (categories : List Category) (id : String) (amount : Option ℚ) (tok : String)
       (payee_name notes date : Option String) (cleared : Option Bool),
       findByIdOrName Category.id Category.name tok categories = none →
       (updateTransactionHandler categories id amount (some tok) payee_name notes date
           cleared).2.category = none ∧
       (updateTransactionHandler categories id amount (some tok) payee_name notes date
           cleared).1.success = true) := by
  constructor
  · intro accounts cats today addedIds accTok amount pn tok notes date fa hacc hcat
    have hcid :
        (match optTruthy (some tok) with
          | some c => (findByIdOrName Category.id Category.name c cats).map Category.id
          | none => none) = none := by
      by_cases htok : tok = ""
      · simp [optTruthy, htok]
      · simp [optTruthy, htok, hcat]
    unfold addTransactionHandler
    rw [hacc]
    simp only [hcid]
    rfl
  · intro cats id amount tok pn notes date cleared hcat
    have hcid :
        (match optTruthy (some tok) with
          | some c => (findByIdOrName Category.id Category.name c cats).map Category.id
          | none => none) = none := by
      by_cases htok : tok = ""
      · simp [optTruthy, htok]
      · simp [optTruthy, htok, hcat]
    unfold updateTransactionHandler
    simp only [hcid]
    constructor <;> trivial

/-- Claim C7 witness: an unresolvable category token `Dining` on both the add
path (account resolvable) and the update path still succeeds with the category
omitted. -/
theorem category_resolution_lenient_paths_witness :
    addTxnOutcome (addTransactionHandler [⟨"a1", "Checking", false, false⟩]
        [⟨"c1", "Food", none, false⟩] "2024-05-01" ["t9"] "Checking" (-12) none
        (some "Dining") none none) = some (true, firstOrUnknown ["t9"], none) ∧
    ((updateTransactionHandler [⟨"c1", "Food", none, false⟩] "t9" none (some "Dining") none
        none none none).2.category = none ∧
     (updateTransactionHandler [⟨"c1", "Food", none, false⟩] "t9" none (some "Dining") none
        none none none).1.success = true) :=
  ⟨category_resolution_lenient_paths.1 [⟨"a1", "Checking", false, false⟩]
      [⟨"c1", "Food", none, false⟩] "2024-05-01" ["t9"] "Checking" (-12) none "Dining" none
      none ⟨"a1", "Checking", false, false⟩ (by decide) (by decide),
   category_resolution_lenient_paths.2 [⟨"c1", "Food", none, false⟩] "t9" none "Dining" none
      none none none (by decide)⟩

/-- Claim C5: in the spending summary, whenever the computed spent total is
zero, every reported category percentage is zero (the percentage branch never
divides by the zero total). -/
theorem spending_summary_zero_total_percentages :
    ∀ (accounts : List Account) (categories : List Category)
      (fetch : String → List RawTxn) (startDate endDate : String),
      (summarize (categoryLookupOf categories)
          (collectSummaryTxns accounts fetch)).totalSpent = 0 →
      allPercentagesZero
        (getSpendingSummaryHandler accounts categories fetch startDate endDate) = true := by
  intro accounts cats fetch sd ed h
  unfold allPercentagesZero
  rw [List.all_eq_true]
  intro e he
  unfold getSpendingSummaryHandler at he
  simp only [List.mem_mergeSort] at he
  obtain ⟨kv, hkv, rfl⟩ := List.mem_map.mp he
  simp [h]

/-- Claim C5 witness: a single income-only transaction gives a zero spent
total, and every reported percentage is zero. -/
theorem spending_summary_zero_total_percentages_witness :
    allPercentagesZero (getSpendingSummaryHandler [⟨"a1", "Checking", false, false⟩] []
      (fun _ => [⟨"t1", "2024-01-05", 500, none, none, none, none⟩]) "2024-01-01" "2024-01-31") =
      true :=
  spending_summary_zero_total_percentages [⟨"a1", "Checking", false, false⟩] []
    (fun _ => [⟨"t1", "2024-01-05", 500, none, none, none, none⟩]) "2024-01-01" "2024-01-31"
    (by decide)

/-- Specification form of a group's recomputed spend: the sum of the absolute
values of its categories' spent fields. -/
def sumAbsSpent (g : CategoryGroupBudget) : ℤ :=
  (g.categories.map (fun c => |c.spent|)).sum

/-- Rewrite every group-level `spent` field of a budget month (used to state
that the rollup is independent of that field). -/
def mapGroupSpentField (f : ℤ → ℤ) (budget : BudgetMonthData) : BudgetMonthData :=
  { budget with
    categoryGroups := budget.categoryGroups.map (fun g => { g with spent := f g.spent }) }

/-- Left fold of absolute category spend equals the starting value plus the
mapped sum. -/
theorem foldl_add_abs (l : List CategoryBudget) (s : ℤ) :
    l.foldl (fun sum c => sum + |c.spent|) s = s + (l.map (fun c => |c.spent|)).sum := by
  induction l generalizing s with
  | nil => simp
  | cons c l ih => simp [List.foldl_cons, ih, add_assoc]

/-- The handler's fold over one group matches the specification sum. -/
theorem groupSpentOf_eq (g : CategoryGroupBudget) : groupSpentOf g = sumAbsSpent g := by
  unfold groupSpentOf sumAbsSpent
  simpa using foldl_add_abs g.categories 0

/-- Closed form of the accumulating fold over the category groups. -/
theorem rollupFoldSpec (gs : List CategoryGroupBudget) (t : ℤ) (l : List GroupOut) :
    gs.foldl
      (fun (acc : ℤ × List GroupOut) g => (acc.1 + groupSpentOf g, acc.2 ++ [groupOut g]))
      (t, l) = (t + (gs.map groupSpentOf).sum, l ++ gs.map groupOut) := by
  induction gs generalizing t l with
  | nil => simp
  | cons g gs ih => simp [List.foldl_cons, ih, add_assoc]

/-- The output row of a group ignores the group record's own `spent` field. -/
theorem groupOut_spent_update (f : ℤ → ℤ) (g : CategoryGroupBudget) :
    groupOut { g with spent := f g.spent } = groupOut g := by
  cases g
  rfl

/-- The recomputed group spend ignores the group record's own `spent` field. -/
theorem groupSpentOf_spent_update (f : ℤ → ℤ) (g : CategoryGroupBudget) :
    groupSpentOf { g with spent := f g.spent } = groupSpentOf g := by
  cases g
  rfl

/-- Claim C3: in the `get_budget_month` rollup, every group's reported spent is
the currency-normalized sum of the absolute values of its categories' spent
fields, the reported total spent is the normalized sum of those recomputed
group totals, and the whole output is independent of the group-level `spent`
values supplied by the data source. -/
theorem budget_month_rollup_spent :
    ∀ (budget : BudgetMonthData) (targetMonth : String),
      ((getBudgetMonthHandler budget targetMonth).category_groups.map GroupOut.spent =
        budget.categoryGroups.map (fun g => fromAmount ((sumAbsSpent g : ℤ) : ℚ))) ∧
      ((getBudgetMonthHandler budget targetMonth).total_spent =
        fromAmount (((budget.categoryGroups.map sumAbsSpent).sum : ℤ) : ℚ)) ∧
      (∀ f : ℤ → ℤ,
        getBudgetMonthHandler (mapGroupSpentField f budget) targetMonth =
          getBudgetMonthHandler budget targetMonth) := by
  intro budget tm
  refine ⟨?_, ?_, ?_⟩
  · unfold getBudgetMonthHandler
    rw [rollupFoldSpec]
    simp only [List.nil_append, List.map_map]
    refine List.map_congr_left ?_
    intro g _
    show fromAmount ((groupSpentOf g : ℤ) : ℚ) = fromAmount ((sumAbsSpent g : ℤ) : ℚ)
    rw [groupSpentOf_eq]
  · unfold getBudgetMonthHandler
    rw [rollupFoldSpec]
    have hmap : budget.categoryGroups.map groupSpentOf = budget.categoryGroups.map sumAbsSpent :=
      List.map_congr_left (fun g _ => groupSpentOf_eq g)
    simp only [zero_add, hmap]
  · intro f
    unfold getBudgetMonthHandler mapGroupSpentField
    rw [rollupFoldSpec, rollupFoldSpec]
    simp only [List.map_map, Function.comp_def]
    have h1 : budget.categoryGroups.map (fun g => groupSpentOf { g with spent := f g.spent }) =
        budget.categoryGroups.map groupSpentOf :=
      List.map_congr_left (fun g _ => groupSpentOf_spent_update f g)
    have h2 : budget.categoryGroups.map (fun g => groupOut { g with spent := f g.spent }) =
        budget.categoryGroups.map groupOut :=
      List.map_congr_left (fun g _ => groupOut_spent_update f g)
    rw [h1, h2]

/-- The AND-combination of the four optional search filters (each condition is
`true` when its input is absent). -/
def searchPred (payeeLookup : String → Option String) (payeeArg notesArg : Option String)
    (minArg maxArg : Option ℚ) (t : TaggedTxn) : Bool :=
  maxCond maxArg t &&
    (minCond minArg t && (notesCond notesArg t && payeeCond payeeLookup payeeArg t))

/-- The sequential conditional filters of the search are one filter by the
AND-combined predicate. -/
theorem searchFilter_eq_filter (pl : String → Option String) (pa na : Option String)
    (ma xa : Option ℚ) (ts : List TaggedTxn) :
    searchFilter pl pa na ma xa ts = ts.filter (searchPred pl pa na ma xa) := by
  unfold searchFilter searchPred payeeCond notesCond minCond maxCond
  rcases hpa : optTruthy pa with _ | p <;> rcases hna : optTruthy na with _ | s <;>
    cases ma <;> cases xa <;>
      simp [hpa, hna, List.filter_filter, List.filter_true]

/-- With every filter input absent, the combined search predicate accepts
everything. -/
theorem searchPred_none (pl : String → Option String) :
    searchPred pl none none none none = fun _ => true := by
  funext t
  simp [searchPred, maxCond, minCond, notesCond, payeeCond, optTruthy]

/-- Sorting a singleton list is the identity (the sort is a permutation). -/
theorem mergeSort_single {α : Type} (le : α → α → Bool) (x : α) :
    [x].mergeSort le = [x] :=
  List.perm_singleton.mp (List.mergeSort_perm [x] le)

/-- The descending date comparator is transitive. -/
theorem dateDescLe_trans (a b c : TaggedTxn) (hab : dateDescLe a b = true)
    (hbc : dateDescLe b c = true) : dateDescLe a c = true := by
  unfold dateDescLe at *
  rw [decide_eq_true_iff] at *
  exact le_trans hbc hab

/-- The descending date comparator is total. -/
theorem dateDescLe_total (a b : TaggedTxn) : (dateDescLe a b || dateDescLe b a) = true := by
  unfold dateDescLe
  rcases le_total b.date a.date with h | h <;> simp [h]

/-- Claim C4 (amended): the search filters are AND-combined, each applied only
when its input is present (an empty-string payee or notes filter counts as
absent); the result is the filtered set sorted descending by date and truncated
to the effective limit, where a requested limit of zero — like an omitted one —
falls back to the default 50; omitting every filter yields the full fetched
set, sorted and truncated; the output length never exceeds the effective
limit; and the output is sorted descending by date. -/
theorem search_filters_and_sort_limit :
    (∀ (payeeLookup : String → Option String) (payeeArg notesArg : Option String)
       (minArg maxArg : Option ℚ) (ts : List TaggedTxn),
       searchFilter payeeLookup payeeArg notesArg minArg maxArg ts =
         ts.filter (searchPred payeeLookup payeeArg notesArg minArg maxArg)) ∧
    (∀ (accounts : List Account) (payees : List Payee) (categories : List Category)
       (fetch : String → String → String → List RawTxn) (todayStr ninetyDaysAgoStr : String)
       (payeeArg notesArg : Option String) (minArg maxArg : Option ℚ)
       (startArg endArg : Option String) (limitArg : Option Nat),
       (searchTransactionsHandler accounts payees categories fetch todayStr ninetyDaysAgoStr
           payeeArg notesArg minArg maxArg startArg endArg limitArg).transactions =
         ((((gatherSearchTxns accounts fetch (jsOrString startArg ninetyDaysAgoStr)
               (jsOrString endArg todayStr)).filter
             (searchPred (payeeLookupOf payees) payeeArg notesArg minArg maxArg)).mergeSort
             dateDescLe).take (effLimit limitArg)).map
           (formatSearchTxn (accountLookupOf accounts) (payeeLookupOf payees)
             (categoryLookupOf categories))) ∧
    (∀ (accounts : List Account) (payees : List Payee) (categories : List Category)
       (fetch : String → String → String → List RawTxn) (todayStr ninetyDaysAgoStr : String)
       (startArg endArg : Option String) (limitArg : Option Nat),
       (searchTransactionsHandler accounts payees categories fetch todayStr ninetyDaysAgoStr
           none none none none startArg endArg limitArg).transactions =
         (((gatherSearchTxns accounts fetch (jsOrString startArg ninetyDaysAgoStr)
             (jsOrString endArg todayStr)).mergeSort dateDescLe).take
             (effLimit limitArg)).map
           (formatSearchTxn (accountLookupOf accounts) (payeeLookupOf payees)
             (categoryLookupOf categories))) ∧
    (∀ (accounts : List Account) (payees : List Payee) (categories : List Category)
       (fetch : String → String → String → List RawTxn) (todayStr ninetyDaysAgoStr : String)
       (payeeArg notesArg : Option String) (minArg maxArg : Option ℚ)
       (startArg endArg : Option String) (limitArg : Option Nat),
       (searchTransactionsHandler accounts payees categories fetch todayStr ninetyDaysAgoStr
           payeeArg notesArg minArg maxArg startArg endArg limitArg).transactions.length ≤
         effLimit limitArg) ∧
    (∀ (accounts : List Account) (payees : List Payee) (categories : List Category)
       (fetch : String → String → String → List RawTxn) (todayStr ninetyDaysAgoStr : String)
       (payeeArg notesArg : Option String) (minArg maxArg : Option ℚ)
       (startArg endArg : Option String) (limitArg : Option Nat),
       List.Pairwise (fun a b => b.date ≤ a.date)
         (searchTransactionsHandler accounts payees categories fetch todayStr
           ninetyDaysAgoStr payeeArg notesArg minArg maxArg startArg endArg
           limitArg).transactions) := by
  refine ⟨searchFilter_eq_filter, ?_, ?_, ?_, ?_⟩
  · intro accounts payees categories fetch todayStr nda pa na mi ma sa ea la
    simp only [searchTransactionsHandler, searchFilter_eq_filter]
  · intro accounts payees categories fetch todayStr nda sa ea la
    simp only [searchTransactionsHandler, searchFilter_eq_filter, searchPred_none,
      List.filter_true]
  · intro accounts payees categories fetch todayStr nda pa na mi ma sa ea la
    simp only [searchTransactionsHandler, List.length_map, List.length_take]
    exact min_le_left _ _
  · intro accounts payees categories fetch todayStr nda pa na mi ma sa ea la
    simp only [searchTransactionsHandler]
    rw [List.pairwise_map]
    have hsorted :
        List.Pairwise (fun a b => dateDescLe a b = true)
          ((searchFilter (payeeLookupOf payees) pa na mi ma
            (gatherSearchTxns accounts fetch (jsOrString sa nda)
              (jsOrString ea todayStr))).mergeSort dateDescLe) :=
      List.sorted_mergeSort dateDescLe_trans dateDescLe_total _
    have htaken := hsorted.sublist (List.take_sublist (effLimit la) _)
    refine htaken.imp ?_
    intro a b h
    rw [dateDescLe] at h
    exact of_decide_eq_true h

/-- Claim C4 counterexample: with one matching transaction and a requested
limit of 0, the handler returns one result rather than zero — `limit || 50`
treats a zero limit as absent, so the output is not truncated to the requested
limit. -/
theorem search_limit_zero_cx :
    (searchTransactionsHandler [⟨"a1", "Checking", false, false⟩] [] []
        (fun _ _ _ => [⟨"t1", "2024-03-01", -500, none, none, none, none⟩]) "2024-03-31"
        "2024-01-01" none none none none none none (some 0)).transactions.length = 1 ∧
    ¬ ((searchTransactionsHandler [⟨"a1", "Checking", false, false⟩] [] []
        (fun _ _ _ => [⟨"t1", "2024-03-01", -500, none, none, none, none⟩]) "2024-03-31"
        "2024-01-01" none none none none none none (some 0)).transactions.length ≤ 0) := by
  have h : (searchTransactionsHandler [⟨"a1", "Checking", false, false⟩] [] []
      (fun _ _ _ => [⟨"t1", "2024-03-01", -500, none, none, none, none⟩]) "2024-03-31"
      "2024-01-01" none none none none none none (some 0)).transactions.length = 1 := by
    simp [searchTransactionsHandler, gatherSearchTxns, searchFilter, tagTxn, effLimit,
      mergeSort_single, jsOrString, optTruthy]
  refine ⟨h, ?_⟩
  simp [h]

/-- The C9 property of one tool result: the text content is exactly the JSON
serialization of the structured payload. -/
def textMatchesStructured (r : ToolResult) : Prop :=
  r.content = [{ type := "text", text := jsonStringify r.structuredContent }]

/-- The C9 property of a throwing tool: every invocation that succeeds returns
text matching its structured payload (failures return no result at all). -/
def exceptTextMatches : Except String ToolResult → Prop
  | .ok r => textMatchesStructured r
  | .error _ => True

/-- Result shaping of `get_account_balance`: resolve the account (hard error),
return its name and normalized balance. -/
def getAccountBalanceResult (accounts : List Account) (balanceOf : String → ℤ)
    (account : String) : Except String ToolResult :=
  match findByIdOrName Account.id Account.name account accounts with
  | none => .error ("Account not found: " ++ account)
  | some found =>
    let output := Json.jobj [("account_name", .jstr found.name),
      ("balance", .jnum (fromAmount ((balanceOf found.id : ℤ) : ℚ)))]
    .ok { content := [{ type := "text", text := jsonStringify output }]
          structuredContent := output }

/-- JSON encoding of the `add_transaction` output object. -/
def encodeAddTransactionOutput (o : AddTransactionOutput) : Json :=
  .jobj [("success", .jbool o.success), ("transaction_id", .jstr o.transaction_id),
         ("message", .jstr o.message)]

/-- Result shaping of `add_transaction` on top of its handler. -/
def addTransactionResult (accounts : List Account) (categories : List Category)
    (today : String) (addedIds : List String)
    (account : String) (amount : ℚ) (payee_name : Option String)
    (category : Option String) (notes : Option String) (date : Option String) :
    Except String ToolResult :=
  match addTransactionHandler accounts categories today addedIds account amount payee_name
      category notes date with
  | .error e => .error e
  | .ok (out, _) =>
    let output := encodeAddTransactionOutput out
    .ok { content := [{ type := "text", text := jsonStringify output }]
          structuredContent := output }

/-- One formatted row of the `get_transactions` output. -/
structure TxnRowOut where
  id : String
  date : String
  amount : ℚ
  payee : Option String
  category : Option String
  notes : Option String
  cleared : Option Bool
deriving DecidableEq, Repr

/-- Formatting step of `get_transactions`: resolve payee/category ids to names
via the lookup maps and normalize the amount. -/
def formatTxnRow (payeeLookup categoryLookup : String → Option String) (t : RawTxn) :
    TxnRowOut :=
  { id := t.id
    date := t.date
    amount := fromAmount (t.amount : ℚ)
    payee := (optTruthy t.payee).bind payeeLookup
    category := (optTruthy t.category).bind categoryLookup
    notes := t.notes
    cleared := t.cleared }

/-- JSON encoding of one `get_transactions` row (absent optional fields are
dropped, as `JSON.stringify` drops `undefined` properties). -/
def encodeTxnRow (t : TxnRowOut) : Json :=
  .jobj ([("id", Json.jstr t.id), ("date", Json.jstr t.date), ("amount", Json.jnum t.amount)] ++
    (match t.payee with | some p => [("payee", Json.jstr p)] | none => []) ++
    (match t.category with | some c => [("category", Json.jstr c)] | none => []) ++
    (match t.notes with | some n => [("notes", Json.jstr n)] | none => []) ++
    (match t.cleared with | some b => [("cleared", Json.jbool b)] | none => []))

/-- Result shaping of `get_transactions`: resolve the account (hard error),
default the window to the last 30 days, fetch, format, and count. -/
def getTransactionsResult (accounts : List Account) (payees : List Payee)
    (categories : List Category) (fetch : String → String → String → List RawTxn)
    (todayStr thirtyDaysAgoStr : String) (account : String)
    (startArg endArg : Option String) : Except String ToolResult :=
  match findByIdOrName Account.id Account.name account accounts with
  | none => .error ("Account not found: " ++ account)
  | some found =>
    let endDate := jsOrString endArg todayStr
    let startDate := jsOrString startArg thirtyDaysAgoStr
    let rows := (fetch found.id startDate endDate).map
      (formatTxnRow (payeeLookupOf payees) (categoryLookupOf categories))
    let output := Json.jobj [("account_name", .jstr found.name),
      ("transactions", .jarr (rows.map encodeTxnRow)),
      ("total_count", .jnum (rows.length : ℚ))]
    .ok { content := [{ type := "text", text := jsonStringify output }]
          structuredContent := output }

/-- Result shaping of `update_transaction` on top of its handler (the handler
never throws; the update payload is submitted and success reported). -/
def updateTransactionResult (categories : List Category) (id : String)
    (amount : Option ℚ) (category : Option String) (payee_name : Option String)
    (notes : Option String) (date : Option String) (cleared : Option Bool) : ToolResult :=
  let out := (updateTransactionHandler categories id amount category payee_name notes date
    cleared).1
  let output := Json.jobj [("success", .jbool out.success), ("message", .jstr out.message)]
  { content := [{ type := "text", text := jsonStringify output }]
    structuredContent := output }

/-- Result shaping of `delete_transaction` (unconditional delete, fixed
success message naming the id). -/
def deleteTransactionResult (id : String) : ToolResult :=
  let output := Json.jobj [("success", .jbool true),
    ("message", .jstr ("Transaction " ++ id ++ " deleted successfully"))]
  { content := [{ type := "text", text := jsonStringify output }]
    structuredContent := output }

/-- Category-group record as listed by the ledger data access layer. -/
structure CategoryGroup where
  id : String
  name : String
  is_income : Bool
deriving DecidableEq, Repr

/-- Result shaping of `get_categories`: each group carries the categories whose
`group_id` equals the group's id. -/
def getCategoriesResult (groups : List CategoryGroup) (categories : List Category) :
    ToolResult :=
  let output := Json.jobj [("category_groups", .jarr (groups.map (fun g =>
    Json.jobj [("id", .jstr g.id), ("name", .jstr g.name), ("is_income", .jbool g.is_income),
      ("categories", .jarr ((categories.filter (fun c => c.group_id == some g.id)).map
        (fun c => Json.jobj [("id", .jstr c.id), ("name", .jstr c.name)])))])))]
  { content := [{ type := "text", text := jsonStringify output }]
    structuredContent := output }

/-- JSON encoding of one `get_budget_month` category row. -/
def encodeCategoryOut (c : CategoryOut) : Json :=
  .jobj [("name", .jstr c.name), ("budgeted", .jnum c.budgeted), ("spent", .jnum c.spent),
         ("balance", .jnum c.balance)]

/-- JSON encoding of one `get_budget_month` group row. -/
def encodeGroupOut (g : GroupOut) : Json :=
  .jobj [("name", .jstr g.name), ("budgeted", .jnum g.budgeted), ("spent", .jnum g.spent),
         ("balance", .jnum g.balance),
         ("categories", .jarr (g.categories.map encodeCategoryOut))]

/-- JSON encoding of the `get_budget_month` output object. -/
def encodeBudgetMonthOutput (o : BudgetMonthOutput) : Json :=
  .jobj [("month", .jstr o.month), ("to_budget", .jnum o.to_budget),
         ("total_budgeted", .jnum o.total_budgeted), ("total_spent", .jnum o.total_spent),
         ("category_groups", .jarr (o.category_groups.map encodeGroupOut))]

/-- Result shaping of `get_budget_month`: default the month, fetch the
snapshot, run the rollup, and serialize. -/
def getBudgetMonthResult (budgetOf : String → BudgetMonthData) (currentMonth : String)
    (month : Option String) : ToolResult :=
  let targetMonth := jsOrString month currentMonth
  let output := encodeBudgetMonthOutput (getBudgetMonthHandler (budgetOf targetMonth)
    targetMonth)
  { content := [{ type := "text", text := jsonStringify output }]
    structuredContent := output }

/-- Result shaping of `set_budget_amount` on top of its handler (error
propagates; success serializes the confirmation). -/
def setBudgetAmountResult (categories : List Category) (currentMonth : String)
    (month : Option String) (category : String) (amount : ℚ) :
    Except String ToolResult :=
  match (setBudgetAmountHandler categories currentMonth month category amount).1 with
  | .error e => .error e
  | .ok out =>
    let output := Json.jobj [("success", .jbool out.success), ("message", .jstr out.message)]
    .ok { content := [{ type := "text", text := jsonStringify output }]
          structuredContent := output }

/-- Result shaping of `get_payees`: exclude transfer payees (truthy
`transfer_acct`), optionally filter by a case-insensitive substring, count. -/
def getPayeesResult (payees : List Payee) (search : Option String) : ToolResult :=
  let kept : List Payee := payees.filter (fun p => (optTruthy p.transfer_acct).isNone)
  let kept : List Payee :=
    match optTruthy search with
    | some s => kept.filter (fun p => strContainsLower p.name s)
    | none => kept
  let output := Json.jobj [("payees", .jarr (kept.map (fun p =>
      Json.jobj [("id", .jstr p.id), ("name", .jstr p.name)]))),
    ("total_count", .jnum (kept.length : ℚ))]
  { content := [{ type := "text", text := jsonStringify output }]
    structuredContent := output }

/-- JSON encoding of one `get_spending_summary` category row. -/
def encodeCategorySummary (e : CategorySummary) : Json :=
  .jobj [("category", .jstr e.category), ("amount", .jnum e.amount),
         ("percentage", .jnum ((e.percentage : ℤ) : ℚ))]

/-- JSON encoding of the `get_spending_summary` output object. -/
def encodeSpendingSummaryOutput (o : SpendingSummaryOutput) : Json :=
  .jobj [("period", .jobj [("start", .jstr o.period_start), ("end", .jstr o.period_end)]),
         ("total_spent", .jnum o.total_spent), ("total_income", .jnum o.total_income),
         ("net", .jnum o.net),
         ("by_category", .jarr (o.by_category.map encodeCategorySummary))]

/-- Result shaping of `get_spending_summary`: default the window (today and
the first of the current month), aggregate, and serialize. -/
def getSpendingSummaryResult (accounts : List Account) (categories : List Category)
    (fetch : String → List RawTxn) (todayStr firstOfMonthStr : String)
    (startArg endArg : Option String) : ToolResult :=
  let endDate := jsOrString endArg todayStr
  let startDate := jsOrString startArg firstOfMonthStr
  let output := encodeSpendingSummaryOutput
    (getSpendingSummaryHandler accounts categories fetch startDate endDate)
  { content := [{ type := "text", text := jsonStringify output }]
    structuredContent := output }

/-- Amount field of a schedule (`_amount`): a plain minor-unit integer or a
two-endpoint range object. -/
inductive ScheduleAmount where
  | single (n : ℤ)
  | range (num1 num2 : ℤ)
deriving DecidableEq, Repr

/-- Recurrence configuration of a schedule (`_date` when it is an object; the
frequency key may be absent). -/
structure ScheduleDateCfg where
  frequency : Option String
  interval : Option Nat
deriving DecidableEq, Repr

/-- Schedule record as listed by the ledger data access layer (`_payee`,
`_account`, `_amount` and `_date` are modelled as the corresponding fields). -/
structure Schedule where
  id : String
  name : Option String
  next_date : Option String
  completed : Option Bool
  amountField : Option ScheduleAmount
  dateField : Option ScheduleDateCfg
  payeeField : Option String
  accountField : Option String
deriving DecidableEq, Repr

/-- Display amount of a schedule: a plain amount is normalized directly, a
range surfaces only its first endpoint, anything else is absent. -/
def scheduleAmountOut : Option ScheduleAmount → Option ℚ
  | some (.single n) => some (fromAmount (n : ℤ))
  | some (.range n1 _) => some (fromAmount (n1 : ℤ))
  | none => none

/-- Display frequency of a schedule: the bare frequency name when the
effective interval (`interval || 1`) is 1, else `every {interval} {frequency}`;
absent when the date config or its frequency is absent. -/
def scheduleFrequencyOut : Option ScheduleDateCfg → Option String
  | some cfg =>
    match cfg.frequency with
    | some freq =>
      let interval := match cfg.interval with | some i => if i = 0 then 1 else i | none => 1
      if interval = 1 then some freq
      else some ("every " ++ toString interval ++ " " ++ freq)
    | none => none
  | none => none

/-- One formatted row of the `get_schedules` output. -/
structure ScheduleOut where
  id : String
  name : Option String
  next_date : Option String
  frequency : Option String
  amount : Option ℚ
  payee : Option String
  account : Option String
  completed : Option Bool
deriving DecidableEq, Repr

/-- Formatting step of `get_schedules`: derive display amount and frequency,
resolve linked payee/account ids to names. -/
def formatSchedule (accountLookup payeeLookup : String → Option String) (s : Schedule) :
    ScheduleOut :=
  { id := s.id
    name := s.name
    next_date := s.next_date
    frequency := scheduleFrequencyOut s.dateField
    amount := scheduleAmountOut s.amountField
    payee := (optTruthy s.payeeField).bind payeeLookup
    account := (optTruthy s.accountField).bind accountLookup
    completed := s.completed }

/-- JSON encoding of one `get_schedules` row (absent optional fields are
dropped, as `JSON.stringify` drops `undefined` properties). -/
def encodeScheduleOut (s : ScheduleOut) : Json :=
  .jobj ([("id", Json.jstr s.id)] ++
    (match s.name with | some v => [("name", Json.jstr v)] | none => []) ++
    (match s.next_date with | some v => [("next_date", Json.jstr v)] | none => []) ++
    (match s.frequency with | some v => [("frequency", Json.jstr v)] | none => []) ++
    (match s.amount with | some v => [("amount", Json.jnum v)] | none => []) ++
    (match s.payee with | some v => [("payee", Json.jstr v)] | none => []) ++
    (match s.account with | some v => [("account", Json.jstr v)] | none => []) ++
    (match s.completed with | some v => [("completed", Json.jbool v)] | none => []))

/-- Result shaping of `get_schedules`: format every schedule and count. -/
def getSchedulesResult (schedules : List Schedule) (accounts : List Account)
    (payees : List Payee) : ToolResult :=
  let rows := schedules.map (formatSchedule (accountLookupOf accounts) (payeeLookupOf payees))
  let output := Json.jobj [("schedules", .jarr (rows.map encodeScheduleOut)),
    ("total_count", .jnum (rows.length : ℚ))]
  { content := [{ type := "text", text := jsonStringify output }]
    structuredContent := output }

/-- Result shaping of `create_schedule`: resolve the account (hard error),
resolve the payee by exact case-insensitive name — falling back to a freshly
created payee id — and report the backend's new schedule id. The submitted
recurrence payload and the backend id response are abstracted as the
`createdPayeeId` / `newScheduleId` parameters. -/
def createScheduleResult (accounts : List Account) (payees : List Payee)
    (createdPayeeId newScheduleId : String) (name : Option String) (account : String)
    (payee : Option String) (amount : ℚ) (start_date frequency : String) :
    Except String ToolResult :=
  match findByIdOrName Account.id Account.name account accounts with
  | none => .error ("Account not found: " ++ account)
  | some _found =>
    let _payeeId : Option String :=
      match optTruthy payee with
      | some p =>
        match payees.find? (fun q => lowerStr q.name == lowerStr p) with
        | some q => some q.id
        | none => some createdPayeeId
      | none => none
    let _amountMinor : ℤ := toAmount amount
    let output := Json.jobj [("success", .jbool true), ("schedule_id", .jstr newScheduleId),
      ("message", .jstr ("Created " ++ frequency ++ " schedule \"" ++
        jsOrString name "Unnamed" ++ "\" starting " ++ start_date))]
    .ok { content := [{ type := "text", text := jsonStringify output }]
          structuredContent := output }

/-- Result shaping of `delete_schedule` (unconditional delete, fixed success
message naming the id). -/
def deleteScheduleResult (id : String) : ToolResult :=
  let output := Json.jobj [("success", .jbool true),
    ("message", .jstr ("Schedule " ++ id ++ " deleted successfully"))]
  { content := [{ type := "text", text := jsonStringify output }]
    structuredContent := output }

/-- Claim C9: for every registered tool — get_accounts, get_account_balance,
add_transaction, get_transactions, search_transactions, update_transaction,
delete_transaction, get_categories, get_budget_month, set_budget_amount,
get_payees, get_spending_summary, get_schedules, create_schedule,
delete_schedule and sync_budget — every invocation that succeeds returns a
text content equal to the JSON serialization of its own structured payload,
so the two renderings never diverge. -/
theorem tool_results_text_matches_structured :
    (∀ (accounts : List Account) (balanceOf : String → ℤ),
      textMatchesStructured (getAccountsResult accounts balanceOf)) ∧
    (∀ (accounts : List Account) (balanceOf : String → ℤ) (account : String),
      exceptTextMatches (getAccountBalanceResult accounts balanceOf account)) ∧
    (∀ (accounts : List Account) (categories : List Category) (today : String)
       (addedIds : List String) (account : String) (amount : ℚ)
       (payee_name category notes date : Option String),
      exceptTextMatches (addTransactionResult accounts categories today addedIds account
        amount payee_name category notes date)) ∧
    (∀ (accounts : List Account) (payees : List Payee) (categories : List Category)
       (fetch : String → String → String → List RawTxn) (todayStr thirtyDaysAgoStr : String)
       (account : String) (startArg endArg : Option String),
      exceptTextMatches (getTransactionsResult accounts payees categories fetch todayStr
        thirtyDaysAgoStr account startArg endArg)) ∧
    (∀ (accounts : List Account) (payees : List Payee) (categories : List Category)
       (fetch : String → String → String → List RawTxn) (todayStr ninetyDaysAgoStr : String)
       (payeeArg notesArg : Option String) (minArg maxArg : Option ℚ)
       (startArg endArg : Option String) (limitArg : Option Nat),
      textMatchesStructured (searchTransactionsResult accounts payees categories fetch
        todayStr ninetyDaysAgoStr payeeArg notesArg minArg maxArg startArg endArg limitArg)) ∧
    (∀ (categories : List Category) (id : String) (amount : Option ℚ)
       (category payee_name notes date : Option String) (cleared : Option Bool),
      textMatchesStructured (updateTransactionResult categories id amount category
        payee_name notes date cleared)) ∧
    (∀ id : String, textMatchesStructured (deleteTransactionResult id)) ∧
    (∀ (groups : List CategoryGroup) (categories : List Category),
      textMatchesStructured (getCategoriesResult groups categories)) ∧
    (∀ (budgetOf : String → BudgetMonthData) (currentMonth : String)
       (month : Option String),
      textMatchesStructured (getBudgetMonthResult budgetOf currentMonth month)) ∧
    (∀ (categories : List Category) (currentMonth : String) (month : Option String)
       (category : String) (amount : ℚ),
      exceptTextMatches (setBudgetAmountResult categories currentMonth month category
        amount)) ∧
    (∀ (payees : List Payee) (search : Option String),
      textMatchesStructured (getPayeesResult payees search)) ∧
    (∀ (accounts : List Account) (categories : List Category)
       (fetch : String → List RawTxn) (todayStr firstOfMonthStr : String)
       (startArg endArg : Option String),
      textMatchesStructured (getSpendingSummaryResult accounts categories fetch todayStr
        firstOfMonthStr startArg endArg)) ∧
    (∀ (schedules : List Schedule) (accounts : List Account) (payees : List Payee),
      textMatchesStructured (getSchedulesResult schedules accounts payees)) ∧
    (∀ (accounts : List Account) (payees : List Payee)
       (createdPayeeId newScheduleId : String) (name : Option String) (account : String)
       (payee : Option String) (amount : ℚ) (start_date frequency : String),
      exceptTextMatches (createScheduleResult accounts payees createdPayeeId newScheduleId
        name account payee amount start_date frequency)) ∧
    (∀ id : String, textMatchesStructured (deleteScheduleResult id)) ∧
    textMatchesStructured syncBudgetResult := by
  refine ⟨fun _ _ => rfl, ?_, ?_, ?_, fun _ _ _ _ _ _ _ _ _ _ _ _ _ => rfl,
    fun _ _ _ _ _ _ _ _ => rfl, fun _ => rfl, fun _ _ => rfl, fun _ _ _ => rfl, ?_,
    fun _ _ => rfl, fun _ _ _ _ _ _ _ => rfl, fun _ _ _ => rfl, ?_, fun _ => rfl, rfl⟩
  · intro accounts balanceOf account
    rcases h : findByIdOrName Account.id Account.name account accounts with _ | found <;>
      simp only [getAccountBalanceResult, h] <;> trivial
  · intro accounts categories today addedIds account amount payee_name category notes date
    rcases h : addTransactionHandler accounts categories today addedIds account amount
        payee_name category notes date with e | pr <;>
      simp only [addTransactionResult, h] <;> trivial
  · intro accounts payees categories fetch todayStr thirtyDaysAgoStr account startArg endArg
    rcases h : findByIdOrName Account.id Account.name account accounts with _ | found <;>
      simp only [getTransactionsResult, h] <;> trivial
  · intro categories currentMonth month category amount
    rcases h : (setBudgetAmountHandler categories currentMonth month category amount).1
        with e | out <;>
      simp only [setBudgetAmountResult, h] <;> trivial
  · intro accounts payees createdPayeeId newScheduleId name account payee amount start_date
      frequency
    rcases h : findByIdOrName Account.id Account.name account accounts with _ | found <;>
      simp only [createScheduleResult, h] <;> trivial
